import Mathlib

/-!
Verification of the CARET_analyze architecture-reconstruction core.

This file gives a shallow embedding, in Lean 4, of the parts of the
`caret_analyze` Python package that the checked claims are about:

* the transform tree and its ancestry test
  (`caret_analyze/value_objects/transform.py`),
* the entity structs (publishers, subscriptions, transform
  broadcasters/buffers, nodes, node paths)
  (`caret_analyze/architecture/struct/*.py`),
* the communication pairing pass
  (`caret_analyze/architecture/struct/communication.py`),
* the callback-graph chain expansion
  (`caret_analyze/architecture/graph_search/callback_graph.py`),
* the inter-node searcher's communication table
  (`caret_analyze/architecture/graph_search/node_graph.py`),
* the topic-ignoring reader decorator
  (`caret_analyze/architecture/architecture_loaded.py`).

Python sequences become Lean lists; Python sets are modelled by lists and
reasoned about through membership only; `Optional` becomes `Option`;
exceptions become `Except`/`Option` results.  Definitions keep the source
names (snake_case made lowerCamelCase).
-/

namespace CaretAnalyze

/-- `TransformValue` from `value_objects/transform.py`: an
`(frame_id, child_frame_id)` pair. -/
structure TransformValue where
  frameId : String
  childFrameId : String
deriving DecidableEq, Repr

/-- The rooted tree built by `TransformTreeValue`: a frame (one transform)
plus child trees (`value_objects/transform.py`, class `TransformTreeValue`,
fields `root_tf` and `_childs`). -/
inductive TransformTree where
  | node (rootTf : TransformValue) (childs : List TransformTree)
deriving Repr

/-- The `root_tf` field of a tree node. -/
def TransformTree.rootTfOf : TransformTree → TransformValue
  | .node tf _ => tf

/-- The `_childs` field of a tree node. -/
def TransformTree.childsOf : TransformTree → List TransformTree
  | .node _ cs => cs

mutual

/-- The recursive helper `find_coord_local` of `TransformTreeValue._to_root`:
returns the transforms collected from this tree's root down to the node whose
`root_tf.frame_id` equals `target` (`none` when `target` is not found, in
which case `_to_root`'s set `s` stays empty). -/
def TransformTree.findPath (target : String) : TransformTree → Option (List TransformValue)
  | .node tf childs =>
    if tf.frameId = target then some [tf]
    else
      match TransformTree.findPathList target childs with
      | some s => some (tf :: s)
      | none => none

/-- `find_coord_local` iterated over the child list: first child that
contains `target` wins, mirroring the `for child in tree.childs` loop with
early `return True`. -/
def TransformTree.findPathList (target : String) : List TransformTree → Option (List TransformValue)
  | [] => none
  | t :: ts =>
    match TransformTree.findPath target t with
    | some s => some s
    | none => TransformTree.findPathList target ts

end

/-- `TransformTreeValue._to_root`: the set `s` of transforms on the path from
the tree root to the node whose `root_tf.frame_id` is `target` (empty when
not found).  The Python set is modelled as a list; only membership is used. -/
def TransformTree.toRoot (tree : TransformTree) (target : String) : List TransformValue :=
  (tree.findPath target).getD []

/-- `TransformTreeValue.is_in`: computes the ancestor sets of the lookup
transform's `frame_id` and `child_frame_id`, takes their symmetric
difference (`^` on Python sets), and tests `{target} <= frames`. -/
def TransformTree.isIn (tree : TransformTree)
    (lookupTransform targetTransform : TransformValue) : Bool :=
  let lookupFrameIds := tree.toRoot lookupTransform.frameId
  let lookupChildFrameIds := tree.toRoot lookupTransform.childFrameId
  let frames := lookupFrameIds.filter (fun t => t ∉ lookupChildFrameIds) ++
      lookupChildFrameIds.filter (fun t => t ∉ lookupFrameIds)
  decide (targetTransform ∈ frames)

/-- `TransformTreeValue._get_edge_tfs`: the transforms whose `frame_id` is no
transform's `child_frame_id` in the given collection. -/
def getEdgeTfs (transforms : List TransformValue) : List TransformValue :=
  transforms.filter (fun tfTarget =>
    ¬ transforms.any (fun tf => tfTarget.frameId == tf.childFrameId))

/-- `itertools.groupby(edge_trees, lambda x: x.transform.child_frame_id)`:
consecutive grouping of trees by their root transform's `child_frame_id`. -/
def groupByChildFrameId : List TransformTree → List (String × List TransformTree)
  | [] => []
  | t :: ts =>
    match groupByChildFrameId ts with
    | [] => [(t.rootTfOf.childFrameId, [t])]
    | (k, g) :: rest =>
      if t.rootTfOf.childFrameId = k then (k, t :: g) :: rest
      else (t.rootTfOf.childFrameId, [t]) :: (k, g) :: rest

/-- One pass of the `while(True)` loop of
`TransformTreeValue.create_from_transforms`, with explicit fuel (the Python
loop terminates because `tfs` shrinks; fuel `|transforms| + 1` suffices).
`Util.find_one` is modelled by `List.find?`; a failing lookup or the failing
`assert len(edge_trees) == 1` yields `none`. -/
def createLoop (transforms : List TransformValue) :
    Nat → List TransformValue → Option (List TransformTree) → Option TransformTree
  | 0, _, _ => none
  | fuel + 1, tfs, edgeTrees =>
    let edgeTfs := getEdgeTfs tfs
    let tfs' := tfs.filter (fun t => t ∉ edgeTfs)
    if edgeTrees.isSome && tfs'.isEmpty then
      match edgeTrees with
      | some [t] => some t
      | _ => none
    else
      let trees := match edgeTrees with
        | none => edgeTfs.map (fun tf => TransformTree.node tf [])
        | some ts => ts
      let parents := (groupByChildFrameId trees).mapM (fun kg =>
        match transforms.find? (fun tf => tf.frameId = kg.1) with
        | some parentTf => some (TransformTree.node parentTf kg.2)
        | none => none)
      match parents with
      | some parentTrees => createLoop transforms fuel tfs' (some parentTrees)
      | none => none

/-- `TransformTreeValue.create_from_transforms`: strips edge transforms
bottom-up and regroups them under their parents until a single tree is
left. -/
def createFromTransforms (transforms : List TransformValue) : Option TransformTree :=
  createLoop transforms (transforms.length + 1) transforms none

/-- `CallbackStruct` (`architecture/struct/callback.py`): name, id, and the
declared subscribe/publish topics.  Only the fields the claims exercise are
kept; `node_name` and `symbol` are carried as written. -/
structure CallbackStruct where
  callbackName : String
  callbackId : String
  nodeName : Option String
  symbol : Option String
  subscribeTopicName : Option String
  publishTopicNames : Option (List String)
deriving DecidableEq, Repr

/-- Modelled from the spec: `CallbackStructValue` (its module
`value_objects/callback.py` is not in the sources); per §3 a callback value
snapshot carries the same identity and topic fields as the struct, with the
publish-topic list frozen to a tuple. -/
structure CallbackStructValue where
  callbackName : String
  callbackId : String
  nodeName : Option String
  symbol : Option String
  subscribeTopicName : Option String
  publishTopicNames : Option (List String)
deriving DecidableEq, Repr

/-- `CallbackStruct.to_value` (shape shared by
`TimerCallbackStruct.to_value` and `SubscriptionCallbackStruct.to_value`):
copies every field into the value snapshot. -/
def CallbackStruct.toValue (c : CallbackStruct) : CallbackStructValue :=
  ⟨c.callbackName, c.callbackId, c.nodeName, c.symbol,
    c.subscribeTopicName, c.publishTopicNames⟩

/-- `PublisherStruct` (`architecture/struct/publisher.py`): node name, topic
name and the optional responsible callbacks. -/
structure PublisherStruct where
  nodeName : String
  topicName : String
  callbacks : Option (List CallbackStruct)
deriving DecidableEq, Repr

/-- Modelled from the spec: `PublisherStructValue`
(`value_objects/publisher.py` is not in the sources); per §3 a publisher
value is the `(node name, topic name)` identity plus callback snapshots. -/
structure PublisherStructValue where
  nodeName : String
  topicName : String
  callbackValues : Option (List CallbackStructValue)
deriving DecidableEq, Repr

/-- `PublisherStruct.to_value`. -/
def PublisherStruct.toValue (p : PublisherStruct) : PublisherStructValue :=
  ⟨p.nodeName, p.topicName, p.callbacks.map (fun cbs => cbs.map CallbackStruct.toValue)⟩

/-- `SubscriptionStruct` (`architecture/struct/subscription.py`): node name,
topic name, optional callback, and the `_is_transformed` finalize flag set by
`to_value` and asserted by the `callback` setter. -/
structure SubscriptionStruct where
  nodeName : String
  topicName : String
  callback : Option CallbackStruct
  isTransformed : Bool
deriving DecidableEq, Repr

/-- Modelled from the spec: `SubscriptionStructValue`
(`value_objects/subscription.py` is not in the sources); per §3 the
subscription snapshot is `(node name, topic name)` plus the callback
snapshot. -/
structure SubscriptionStructValue where
  nodeName : String
  topicName : String
  callback : Option CallbackStructValue
deriving DecidableEq, Repr

/-- `SubscriptionStruct.to_value`: sets `_is_transformed = True` on the
struct and returns the snapshot built from the current fields.  The mutation
is made explicit by returning the updated struct alongside the value. -/
def SubscriptionStruct.toValue (s : SubscriptionStruct) :
    SubscriptionStructValue × SubscriptionStruct :=
  (⟨s.nodeName, s.topicName, s.callback.map CallbackStruct.toValue⟩,
    { s with isTransformed := true })

/-- The `callback` setter of `SubscriptionStruct`: `assert
self._is_transformed == False` guards the assignment, so mutation after
finalize fails (modelled as `Except` with the assertion message). -/
def SubscriptionStruct.setCallback (s : SubscriptionStruct) (cb : CallbackStruct) :
    Except String SubscriptionStruct :=
  if s.isTransformed then .error "AssertionError: self._is_transformed == False"
  else .ok { s with callback := some cb }

/-- `TransformFrameBroadcasterStruct` (`architecture/struct/transform.py`):
one `(publisher, transform)` combination of a broadcaster. -/
structure TransformFrameBroadcasterStruct where
  publisher : PublisherStruct
  transform : TransformValue
deriving DecidableEq, Repr

/-- `TransformFrameBufferStruct` (`architecture/struct/transform.py`): one
`(tf_tree, transform)` lookup combination of a buffer, with the lookup and
listener node names. -/
structure TransformFrameBufferStruct where
  tfTree : TransformTree
  transform : TransformValue
  lookupNodeName : Option String
  listenerNodeName : Option String
deriving Repr

/-- The closed set of endpoint variants an `is_pair(other: Any)` argument can
take at the call sites (`struct_interface.py` fixes node inputs to
subscriptions/frame buffers and node outputs to publishers/frame
broadcasters). -/
inductive EndpointStruct where
  | pub (p : PublisherStruct)
  | sub (s : SubscriptionStruct)
  | br (b : TransformFrameBroadcasterStruct)
  | buf (f : TransformFrameBufferStruct)
deriving Repr

/-- `PublisherStruct.is_pair`: true exactly for a subscription
(`SubscriptionStructInterface`) with the same topic name. -/
def PublisherStruct.isPair (p : PublisherStruct) : EndpointStruct → Bool
  | .sub s => p.topicName == s.topicName
  | _ => false

/-- `SubscriptionStruct.is_pair`: true exactly for a publisher
(`PublisherStructInterface`) with the same topic name. -/
def SubscriptionStruct.isPair (s : SubscriptionStruct) : EndpointStruct → Bool
  | .pub p => p.topicName == s.topicName
  | _ => false

/-- `TransformFrameBufferStruct.is_pair`: for a
`TransformFrameBroadcasterStruct`, asks the transform tree whether the
broadcast transform lies on the buffer's lookup path
(`self._tf_tree.is_in(self.transform, other.transform)`). -/
def TransformFrameBufferStruct.isPair (f : TransformFrameBufferStruct) : EndpointStruct → Bool
  | .br b => f.tfTree.isIn f.transform b.transform
  | _ => false

/-- `TransformFrameBroadcasterStruct.is_pair` (`architecture/struct/transform.py`
lines 47-50): the `TransformFrameBufferStructInterface` branch evaluates
`other.is_pair(self)` but does not return it (the `return` keyword is
absent in the source), so the function falls through to `return False` for
every argument. -/
def TransformFrameBroadcasterStruct.isPair (b : TransformFrameBroadcasterStruct) :
    EndpointStruct → Bool
  | .buf f =>
    let _discarded := f.isPair (.br b)
    false
  | _ => false

/-- `TransformBroadcasterStruct` (`architecture/struct/transform.py`): a
publisher plus its transforms; `__init__` expands each transform into a
`TransformFrameBroadcasterStruct` stored in `_frame_brs`. -/
structure TransformBroadcasterStruct where
  publisher : PublisherStruct
  transforms : List TransformValue
deriving DecidableEq, Repr

/-- The `_frame_brs` list built by `TransformBroadcasterStruct.__init__`. -/
def TransformBroadcasterStruct.frameBroadcasters
    (b : TransformBroadcasterStruct) : List TransformFrameBroadcasterStruct :=
  b.transforms.map (fun tf => ⟨b.publisher, tf⟩)

/-- `TransformBufferStruct` (`architecture/struct/transform.py`): lookup and
listener node names, the lookup transforms, and the tree used by its frame
buffers; `__init__` expands each lookup transform into a
`TransformFrameBufferStruct` stored in `_frame_buffs`. -/
structure TransformBufferStruct where
  lookupNodeName : String
  tfTree : TransformTree
  lookupTransforms : List TransformValue
  listenerNodeName : Option String
deriving Repr

/-- The `_frame_buffs` list built by `TransformBufferStruct.__init__`. -/
def TransformBufferStruct.frameBuffers
    (b : TransformBufferStruct) : List TransformFrameBufferStruct :=
  b.lookupTransforms.map (fun tf =>
    ⟨b.tfTree, tf, some b.lookupNodeName, b.listenerNodeName⟩)

/-- Modelled from the spec: `TimerStruct` (`architecture/struct/timer.py` is
not in the sources); per §3 a timer carries its period and is otherwise
opaque to the claims. -/
structure TimerStruct where
  period : Nat
deriving DecidableEq, Repr

/-- Modelled from the spec: `CallbackGroupStruct`
(`architecture/struct/callback_group.py` is not in the sources); per §3 a
callback group groups a subset of callbacks by id under a name. -/
structure CallbackGroupStruct where
  callbackGroupName : String
  callbacks : List CallbackStruct
deriving DecidableEq, Repr

/-- `VariablePassingStruct` (`architecture/struct/variable_passing.py`): a
directed in-node edge from a writing callback to a reading callback. -/
structure VariablePassingStruct where
  nodeName : Option String
  callbackWrite : Option CallbackStruct
  callbackRead : Option CallbackStruct
deriving DecidableEq, Repr

/-- The node-input variants (`struct_interface.py`, `NodeInputType`):
a subscription or a transform frame buffer. -/
inductive NodeInputType where
  | sub (s : SubscriptionStruct)
  | buf (f : TransformFrameBufferStruct)
deriving Repr

/-- The node-output variants (`struct_interface.py`, `NodeOutputType`):
a publisher or a transform frame broadcaster. -/
inductive NodeOutputType where
  | pub (p : PublisherStruct)
  | br (b : TransformFrameBroadcasterStruct)
deriving DecidableEq, Repr

/-- View of a node input as an `is_pair` argument. -/
def NodeInputType.toEndpoint : NodeInputType → EndpointStruct
  | .sub s => .sub s
  | .buf f => .buf f

/-- View of a node output as an `is_pair` argument. -/
def NodeOutputType.toEndpoint : NodeOutputType → EndpointStruct
  | .pub p => .pub p
  | .br b => .br b

/-- Dispatch of `node_input.is_pair(node_output)` as invoked by
`CommunicationsStruct.__init__`. -/
def NodeInputType.isPair (i : NodeInputType) (o : NodeOutputType) : Bool :=
  match i with
  | .sub s => s.isPair o.toEndpoint
  | .buf f => f.isPair o.toEndpoint

/-- `NodePathStruct` (`architecture/struct/node_path.py`): one
`(node, optional input, optional output)` triple with the optional callback
chain and message context slots.  The message context is kept as an opaque
type-name string. -/
structure NodePathStruct where
  nodeName : String
  nodeInput : Option NodeInputType
  nodeOutput : Option NodeOutputType
  child : Option (List (CallbackStruct ⊕ VariablePassingStruct))
  messageContext : Option String
deriving Repr

/-- `NodeStruct` (`architecture/struct/node.py`): one node's id, name and
entity collections.  The source's `Optional`-with-`assert` collection fields
are modelled as plain lists (the asserts only guard initialization order);
`tf_buffer`/`tf_broadcaster` stay `Option` as in the source. -/
structure NodeStruct where
  nodeId : String
  nodeName : String
  publishers : List PublisherStruct
  subscriptions : List SubscriptionStruct
  timers : List TimerStruct
  nodePaths : List NodePathStruct
  callbackGroups : List CallbackGroupStruct
  variablePassings : List VariablePassingStruct
  tfBuffer : Option TransformBufferStruct
  tfBroadcaster : Option TransformBroadcasterStruct
deriving Repr

/-- `NodeStruct.node_outputs` (`architecture/struct/node.py` lines 115-124):
the publishers with topic `/tf` and topics ending in `/info/pub` filtered
out, followed by the transform broadcaster's frame broadcasters when
present. -/
def NodeStruct.nodeOutputs (n : NodeStruct) : List NodeOutputType :=
  let outputs := n.publishers
  let outputs := outputs.filter (fun x => x.topicName ≠ "/tf")
  let outputs := outputs.filter (fun x => ¬ x.topicName.endsWith "/info/pub")
  outputs.map NodeOutputType.pub ++
    (match n.tfBroadcaster with
     | some b => b.frameBroadcasters.map NodeOutputType.br
     | none => [])

/-- `NodeStruct.node_inputs` (`architecture/struct/node.py` lines 232-237):
the subscriptions followed by the transform buffer's frame buffers when
present. -/
def NodeStruct.nodeInputs (n : NodeStruct) : List NodeInputType :=
  n.subscriptions.map NodeInputType.sub ++
    (match n.tfBuffer with
     | some b => b.frameBuffers.map NodeInputType.buf
     | none => [])

/-- The `tf_buffer` setter of `NodeStruct` (`architecture/struct/node.py`
lines 142-144): a plain assignment with no finalize guard. -/
def NodeStruct.setTfBuffer (n : NodeStruct) (value : TransformBufferStruct) : NodeStruct :=
  { n with tfBuffer := some value }

/-- Modelled from the spec: `TimerStructValue` (`value_objects/timer.py` is
not in the sources); the timer snapshot carries the period. -/
structure TimerStructValue where
  period : Nat
deriving DecidableEq, Repr

/-- `TimerStruct.to_value`. -/
def TimerStruct.toValue (t : TimerStruct) : TimerStructValue :=
  ⟨t.period⟩

/-- Modelled from the spec: `CallbackGroupStructValue`
(`value_objects/callback_group.py` is not in the sources); the snapshot of a
callback group is its name and callback snapshots. -/
structure CallbackGroupStructValue where
  callbackGroupName : String
  callbacks : List CallbackStructValue
deriving DecidableEq, Repr

/-- `CallbackGroupStruct.to_value`. -/
def CallbackGroupStruct.toValue (g : CallbackGroupStruct) : CallbackGroupStructValue :=
  ⟨g.callbackGroupName, g.callbacks.map CallbackStruct.toValue⟩

/-- Modelled from the spec: `VariablePassingStructValue`
(`value_objects/variable_passing.py` is not in the sources).  The source's
`VariablePassingStruct.to_value` passes the callback structs themselves into
the snapshot (not their values), which the model keeps. -/
structure VariablePassingStructValue where
  nodeName : String
  callbackWrite : CallbackStruct
  callbackRead : CallbackStruct
deriving DecidableEq, Repr

/-- `VariablePassingStruct.to_value`: the three accessed properties carry
`assert`s on `None`, so a missing field fails (modelled as `none`). -/
def VariablePassingStruct.toValue (v : VariablePassingStruct) :
    Option VariablePassingStructValue :=
  match v.nodeName, v.callbackWrite, v.callbackRead with
  | some n, some w, some r => some ⟨n, w, r⟩
  | _, _, _ => none

/-- `TransformFrameBroadcasterStructValue` (`value_objects/transform.py`). -/
structure TransformFrameBroadcasterStructValue where
  publisher : PublisherStructValue
  transform : TransformValue
deriving DecidableEq, Repr

/-- `TransformFrameBroadcasterStruct.to_value`. -/
def TransformFrameBroadcasterStruct.toValue (b : TransformFrameBroadcasterStruct) :
    TransformFrameBroadcasterStructValue :=
  ⟨b.publisher.toValue, b.transform⟩

/-- `TransformFrameBufferStructValue` (`value_objects/transform.py`). -/
structure TransformFrameBufferStructValue where
  lookupNodeName : String
  listenerNodeName : Option String
  transform : TransformValue
deriving DecidableEq, Repr

/-- `TransformFrameBufferStruct.to_value`: the `lookup_node_name` property
asserts on `None`. -/
def TransformFrameBufferStruct.toValue (f : TransformFrameBufferStruct) :
    Option TransformFrameBufferStructValue :=
  f.lookupNodeName.map (fun n => ⟨n, f.listenerNodeName, f.transform⟩)

/-- `TransformBroadcasterStructValue` (`value_objects/transform.py`). -/
structure TransformBroadcasterStructValue where
  publisher : PublisherStructValue
  transforms : List TransformValue
deriving DecidableEq, Repr

/-- `TransformBroadcasterStruct.to_value`. -/
def TransformBroadcasterStruct.toValue (b : TransformBroadcasterStruct) :
    TransformBroadcasterStructValue :=
  ⟨b.publisher.toValue, b.transforms⟩

/-- `TransformBufferStructValue` (`value_objects/transform.py`). -/
structure TransformBufferStructValue where
  lookupNodeName : String
  listenerNodeName : Option String
  lookupTransforms : List TransformValue
deriving DecidableEq, Repr

/-- `TransformBufferStruct.to_value`. -/
def TransformBufferStruct.toValue (b : TransformBufferStruct) :
    TransformBufferStructValue :=
  ⟨b.lookupNodeName, b.listenerNodeName, b.lookupTransforms⟩

/-- Modelled from the spec: `NodePathStructValue`
(`value_objects/node_path.py` is not in the sources); per §3 the snapshot of
a node path carries the node name, the optional endpoint snapshots, the
optional callback chain and the message-context classification. -/
structure NodePathStructValue where
  nodeName : String
  subscription : Option SubscriptionStructValue
  publisher : Option PublisherStructValue
  tfFrameBuffer : Option TransformFrameBufferStructValue
  tfFrameBroadcaster : Option TransformFrameBroadcasterStructValue
  child : Option (List (CallbackStructValue ⊕ VariablePassingStructValue))
  messageContext : Option String
deriving DecidableEq, Repr

/-- The `publisher` property of `NodePathStruct`: the node output when it is
a `PublisherStruct`. -/
def NodePathStruct.publisherOf (p : NodePathStruct) : Option PublisherStruct :=
  match p.nodeOutput with
  | some (.pub q) => some q
  | _ => none

/-- The `subscription` property of `NodePathStruct`. -/
def NodePathStruct.subscriptionOf (p : NodePathStruct) : Option SubscriptionStruct :=
  match p.nodeInput with
  | some (.sub s) => some s
  | _ => none

/-- The `tf_frame_broadcaster` property of `NodePathStruct`. -/
def NodePathStruct.tfFrameBroadcasterOf (p : NodePathStruct) :
    Option TransformFrameBroadcasterStruct :=
  match p.nodeOutput with
  | some (.br b) => some b
  | _ => none

/-- The `tf_frame_buffer` property of `NodePathStruct`. -/
def NodePathStruct.tfFrameBufferOf (p : NodePathStruct) : Option TransformFrameBufferStruct :=
  match p.nodeInput with
  | some (.buf f) => some f
  | _ => none

/-- `to_value` of one callback-chain element (`_.to_value() for _ in
self.child`). -/
def childToValue : CallbackStruct ⊕ VariablePassingStruct →
    Option (CallbackStructValue ⊕ VariablePassingStructValue)
  | .inl cb => some (.inl cb.toValue)
  | .inr vp => vp.toValue.map .inr

/-- `NodePathStruct.to_value` (`architecture/struct/node_path.py` lines
85-108): fails (`assert None`) when the publisher topic is `/tf`; otherwise
snapshots every endpoint, the chain and the message context.  The
subscription's `to_value` flag mutation is internal to the snapshot. -/
def NodePathStruct.toValue (p : NodePathStruct) : Option NodePathStructValue :=
  if (p.publisherOf.map PublisherStruct.topicName) = some "/tf" then none
  else do
    let tfBuf ← match p.tfFrameBufferOf with
      | none => pure none
      | some f => f.toValue.map some
    let child ← match p.child with
      | none => pure none
      | some xs => (xs.mapM childToValue).map some
    pure ⟨p.nodeName,
      p.subscriptionOf.map (fun s => s.toValue.1),
      p.publisherOf.map PublisherStruct.toValue,
      tfBuf,
      p.tfFrameBroadcasterOf.map TransformFrameBroadcasterStruct.toValue,
      child,
      p.messageContext⟩

/-- Modelled from the spec: `NodeStructValue` (`value_objects/node.py` is
not in the sources); the snapshot fields mirror the keyword arguments of
`NodeStruct.to_value`. -/
structure NodeStructValue where
  nodeName : String
  nodeId : String
  publishers : List PublisherStructValue
  subscriptions : List SubscriptionStructValue
  timers : List TimerStructValue
  nodePaths : List NodePathStructValue
  callbackGroups : List CallbackGroupStructValue
  variablePassings : List VariablePassingStructValue
  tfBuffer : Option TransformBufferStructValue
  tfBroadcaster : Option TransformBroadcasterStructValue
deriving DecidableEq, Repr

/-- `NodeStruct.to_value` (`architecture/struct/node.py` lines 92-113):
snapshots every collection.  `self.subscriptions.to_value()` sets the
subscriptions' finalize flags, so the (possibly) updated struct is returned
alongside the value; a failing component snapshot yields `none`. -/
def NodeStruct.toValue (n : NodeStruct) : Option (NodeStructValue × NodeStruct) :=
  let subResults := n.subscriptions.map SubscriptionStruct.toValue
  let nodeAfter := { n with subscriptions := subResults.map Prod.snd }
  match n.nodePaths.mapM NodePathStruct.toValue,
      n.variablePassings.mapM VariablePassingStruct.toValue with
  | some nodePathValues, some vpValues =>
    some (⟨n.nodeName, n.nodeId,
      n.publishers.map PublisherStruct.toValue,
      subResults.map Prod.fst,
      n.timers.map TimerStruct.toValue,
      nodePathValues,
      n.callbackGroups.map CallbackGroupStruct.toValue,
      vpValues,
      n.tfBuffer.map TransformBufferStruct.toValue,
      n.tfBroadcaster.map TransformBroadcasterStruct.toValue⟩, nodeAfter)
  | _, _ => none

/-- `itertools.product(xs, ys)`: all pairs, outer index first. -/
def listProduct (xs : List α) (ys : List β) : List (α × β) :=
  xs.flatMap (fun x => ys.map (fun y => (x, y)))

/-- The pre-population part of `NodePathsStruct.create_from_reader`
(`architecture/struct/node_path.py` lines 288-303): one entry per input with
output `None`, one per output with input `None`, one per
`itertools.product(node.node_inputs, node.node_outputs)` pair; `create`
fills `child` and `message_context` with `None`.  The subsequent
`CallbackPathSearch` and `MessageContexts.create_from_reader` phases only
call `get` on the table and never insert. -/
def NodePathsStruct.createFromReaderTable (node : NodeStruct) : List NodePathStruct :=
  node.nodeInputs.map (fun i => ⟨node.nodeName, some i, none, none, none⟩) ++
  node.nodeOutputs.map (fun o => ⟨node.nodeName, none, some o, none, none⟩) ++
  (listProduct node.nodeInputs node.nodeOutputs).map
    (fun io => ⟨node.nodeName, some io.1, some io.2, none, none⟩)

/-- `CommunicationStruct.__init__` fields (`architecture/struct/communication.py`
lines 40-56): the publisher, the subscription and the two node slots named
`node_pub` and `node_sub`; `_callback_pub`/`_callback_sub` are always
`None` (the resolution code is commented out in the source). -/
structure CommunicationStruct where
  pub : PublisherStruct
  sub : SubscriptionStruct
  nodePub : NodeStruct
  nodeSub : NodeStruct
deriving Repr

/-- `TransformCommunicationStruct` (`architecture/struct/communication.py`
lines 120-127). -/
structure TransformCommunicationStruct where
  broadcaster : TransformFrameBroadcasterStruct
  buffer : TransformFrameBufferStruct
deriving Repr

/-- The two communication variants collected by
`CommunicationsStruct.__init__` into `data`. -/
inductive CommStructE where
  | comm (c : CommunicationStruct)
  | tfComm (t : TransformCommunicationStruct)
deriving Repr

/-- `CommunicationsStruct.__init__` (`architecture/struct/communication.py`
lines 144-178): for every `(node_recv, node_send)` in
`product(nodes, nodes)` and every `(node_input, node_output)` in
`product(node_recv.node_inputs, node_send.node_outputs)` with
`node_input.is_pair(node_output)`, build a `TransformCommunicationStruct`
for the buffer/broadcaster combination and otherwise a
`CommunicationStruct(nodes, node_output, node_input, node_recv, node_send)`
— whose parameters are `(nodes, pub, sub, node_pub, node_sub)`, so
`node_pub` receives `node_recv` and `node_sub` receives `node_send`.
The source's final `else` branch constructs (without raising) a
`NotImplementedError` and is unreachable: `is_pair` holds only for the two
matched variants (`mixedIsPairFalse` below). -/
def communicationsStructInit (nodes : List NodeStruct) : List CommStructE :=
  (listProduct nodes nodes).flatMap (fun nrs =>
    let nodeRecv := nrs.1
    let nodeSend := nrs.2
    (listProduct nodeRecv.nodeInputs nodeSend.nodeOutputs).filterMap (fun io =>
      if io.1.isPair io.2 then
        match io.1, io.2 with
        | .buf f, .br b => some (.tfComm ⟨b, f⟩)
        | .sub s, .pub p => some (.comm ⟨p, s, nodeRecv, nodeSend⟩)
        | _, _ => none
      else none))

/-- Modelled from the spec: `CommunicationStructValue`
(`value_objects/communication.py` is not in the sources).  Field order
follows the positional arguments of `CommunicationStruct.to_value`
(`node_pub.to_value(), node_sub.to_value(), publisher, subscription,
callbacks_pub, callback_sub`); per §3/§8 `publish_node_name` /
`subscribe_node_name` name the publishing / subscribing node recorded in
those slots and `topic_name` is the paired topic. -/
structure CommunicationStructValue where
  nodePub : NodeStructValue
  nodeSub : NodeStructValue
  publisher : PublisherStructValue
  subscription : SubscriptionStructValue
  callbacksPub : Option (List CallbackStructValue)
  callbackSub : Option CallbackStructValue
deriving DecidableEq, Repr

/-- Modelled from the spec: the `publish_node_name` accessor of a
communication value names its publishing-side node slot. -/
def CommunicationStructValue.publishNodeName (c : CommunicationStructValue) : String :=
  c.nodePub.nodeName

/-- Modelled from the spec: the `subscribe_node_name` accessor of a
communication value names its subscribing-side node slot. -/
def CommunicationStructValue.subscribeNodeName (c : CommunicationStructValue) : String :=
  c.nodeSub.nodeName

/-- Modelled from the spec: the `topic_name` of a communication is the
paired topic (publisher and subscription agree on it by construction). -/
def CommunicationStructValue.topicName (c : CommunicationStructValue) : String :=
  c.publisher.topicName

/-- `CommunicationStruct.to_value` (`architecture/struct/communication.py`
lines 107-117): callbacks are `None`; the node slots are snapshotted in
declaration order. -/
def CommunicationStruct.toValue (c : CommunicationStruct) : Option CommunicationStructValue := do
  let npv ← c.nodePub.toValue
  let nsv ← c.nodeSub.toValue
  pure ⟨npv.1, nsv.1, c.pub.toValue, c.sub.toValue.1, none, none⟩

/-- A Python sequence value whose runtime type matters to `==` checks:
lists and tuples compare unequal even when both are empty. -/
inductive PySeq (α : Type) where
  | list (xs : List α)
  | tuple (xs : List α)
deriving Repr

/-- The elements of a Python sequence. -/
def PySeq.elems : PySeq α → List α
  | .list xs => xs
  | .tuple xs => xs

/-- Python truthiness of a sequence: empty sequences are falsy. -/
def PySeq.isTruthy : PySeq α → Bool
  | .list xs => ¬ xs.isEmpty
  | .tuple xs => ¬ xs.isEmpty

/-- `end_callback.node_outputs or []` (`callback_graph.py` line 90): `None`
and empty sequences are falsy and are replaced by the empty *list*. -/
def pyOrEmptyList (v : Option (PySeq α)) : PySeq α :=
  match v with
  | none => .list []
  | some s => if s.isTruthy then s else .list []

/-- `out_values is None or out_values == ()` (`callback_graph.py` line 92):
after `or []` the value is never `None`; Python `==` between a list and the
empty tuple is `False`, so only an empty *tuple* satisfies the test. -/
def searchGuard (outValues : PySeq α) : Bool :=
  match outValues with
  | .tuple [] => true
  | .tuple (_ :: _) => false
  | .list _ => false

/-- Modelled from the spec: a path of the generic graph engine
(`graph_search/graph_search.py` is not in the sources); per §4.1 a path is
an ordered list of graph nodes joined by edges. -/
structure GraphPathM where
  nodes : List String
deriving DecidableEq, Repr

/-- The chain expansion of `CallbackPathSearcher.search`
(`graph_search/callback_graph.py` lines 78-96): for each found graph path,
the `(in_value, out_value)` argument pairs passed to `_to_path` — `
(in_value, None)` when the guard fires, then one pair per element of
`out_values`. -/
def searchExpansion (graphPaths : List GraphPathM)
    (nodeInput : Option NodeInputType)
    (nodeOutputs : Option (PySeq NodeOutputType)) :
    List (Option NodeInputType × Option NodeOutputType) :=
  graphPaths.flatMap (fun _ =>
    let outValues := pyOrEmptyList nodeOutputs
    (if searchGuard outValues then [(nodeInput, (none : Option NodeOutputType))] else []) ++
      outValues.elems.map (fun o => (nodeInput, some o)))

/-- Modelled from the spec: a labeled directed edge of the generic graph
engine (`graph_search/graph_search.py` is not in the sources, §4.1). -/
structure GraphEdge where
  nodeFrom : String
  nodeTo : String
  label : String
deriving DecidableEq, Repr

/-- `CommunicationWrapper` (`graph_search/node_graph.py` lines 45-72): the
attributes it defines are exactly `input_node_name`, `output_node_name`,
`topic_name` (and `get_key`); it has no `publish_node_name` or
`subscribe_node_name` attribute. -/
structure CommunicationWrapper where
  inputNodeName : String
  outputNodeName : String
  topicName : String
deriving DecidableEq, Repr

/-- `CommunicationWrapper.__init__` on an ordinary communication value:
input is the subscribing node, output the publishing node. -/
def CommunicationWrapper.ofValue (c : CommunicationStructValue) : CommunicationWrapper :=
  ⟨c.subscribeNodeName, c.publishNodeName, c.topicName⟩

/-- `CommunicationWrapper.get_key`: `(output_node_name, input_node_name,
topic_name)`. -/
def CommunicationWrapper.getKey (w : CommunicationWrapper) : String × String × String :=
  (w.outputNodeName, w.inputNodeName, w.topicName)

/-- The loop body of `NodePathSearcher.__init__` over `self._comms`
(`graph_search/node_graph.py` lines 136-160), accumulating `_comm_dict` and
the graph edges.  On a duplicate key the source executes
`logger.warning(... f-string referencing comm.publish_node_name ...)`;
`CommunicationWrapper` defines no such attribute, so evaluating the
f-string raises `AttributeError`, which propagates out of `__init__`
(modelled as `Except.error`). -/
def commTableLoop (nodeFilter : Option (String → Bool))
    (communicationFilter : Option (String → Bool)) :
    List CommunicationWrapper →
    List ((String × String × String) × CommunicationWrapper) →
    List GraphEdge →
    Except String (List ((String × String × String) × CommunicationWrapper) × List GraphEdge)
  | [], table, edges => .ok (table, edges)
  | comm :: rest, table, edges =>
    if (match communicationFilter with
        | some f => ! f comm.topicName
        | none => false) then
      commTableLoop nodeFilter communicationFilter rest table edges
    else if (match nodeFilter with
        | some f => ! f comm.outputNodeName
        | none => false) then
      commTableLoop nodeFilter communicationFilter rest table edges
    else if (match nodeFilter with
        | some f => ! f comm.inputNodeName
        | none => false) then
      commTableLoop nodeFilter communicationFilter rest table edges
    else
      let key := comm.getKey
      if table.any (fun entry => entry.1 = key) then
        .error "AttributeError: CommunicationWrapper object has no attribute publish_node_name"
      else
        commTableLoop nodeFilter communicationFilter rest
          (table ++ [(key, comm)])
          (edges ++ [⟨comm.outputNodeName, comm.inputNodeName, comm.topicName⟩])

/-- The communication-table part of `NodePathSearcher.__init__`: wraps each
communication value and folds `commTableLoop` over them. -/
def nodePathSearcherCommTable (communications : List CommunicationStructValue)
    (nodeFilter : Option (String → Bool))
    (communicationFilter : Option (String → Bool)) :
    Except String (List ((String × String × String) × CommunicationWrapper) × List GraphEdge) :=
  commTableLoop nodeFilter communicationFilter
    (communications.map CommunicationWrapper.ofValue) [] []

/-- Modelled from the spec: `NodeValue` (`value_objects/node.py` is not in
the sources); a reader-side node record with its name and id (§6). -/
structure NodeValue where
  nodeName : String
  nodeId : String
deriving DecidableEq, Repr

/-- `PublisherValue` as returned by the reader (`value_objects/publisher.py`
is not in the sources; fields per its uses in `publisher.py` and §6). -/
structure PublisherValue where
  nodeName : String
  topicName : String
  callbackIds : Option (List String)
deriving DecidableEq, Repr

/-- `SubscriptionValue` as returned by the reader (fields per its uses in
`subscription.py` and §6). -/
structure SubscriptionValue where
  nodeName : String
  topicName : String
  callbackId : Option String
deriving DecidableEq, Repr

/-- `SubscriptionCallbackValue` as returned by the reader (fields per its
uses in `architecture_loaded.py` and §6). -/
structure SubscriptionCallbackValue where
  callbackId : Option String
  nodeName : String
  subscribeTopicName : String
deriving DecidableEq, Repr

/-- `CallbackGroupValue` as returned by the reader (constructor arguments
per `TopicIgnoredReader._get_callback_groups`). -/
structure CallbackGroupValue where
  callbackGroupType : String
  nodeName : String
  nodeId : String
  callbackIds : List String
  callbackGroupId : String
  callbackGroupName : Option String
deriving DecidableEq, Repr

/-- Modelled from the spec: the reader interface
(`architecture/reader_interface.py` is not in the sources); per §6 it
returns, per node, the publisher/subscription/callback/callback-group
records, plus the global node list. -/
structure ArchitectureReader where
  nodes : List NodeValue
  publishers : String → List PublisherValue
  subscriptions : String → List SubscriptionValue
  subscriptionCallbacks : String → List SubscriptionCallbackValue
  callbackGroups : String → List CallbackGroupValue

/-- `TopicIgnoredReader._get_ignore_callback_ids`
(`architecture_loaded.py` lines 160-181): over all reader nodes, collect the
`callback_id`s of subscription callbacks whose subscribed topic is in the
ignore set, skipping `None` ids.  The Python result set is modelled as a
list used through membership. -/
def getIgnoreCallbackIds (reader : ArchitectureReader) (ignoreTopics : List String) :
    List String :=
  reader.nodes.flatMap (fun node =>
    (reader.subscriptionCallbacks node.nodeName).filterMap (fun subVal =>
      if subVal.subscribeTopicName ∈ ignoreTopics then subVal.callbackId else none))

/-- `TopicIgnoredReader._get_publishers` (`architecture_loaded.py` lines
102-108): drop publishers whose topic is ignored. -/
def tirGetPublishers (reader : ArchitectureReader) (ignoreTopics : List String)
    (node : NodeValue) : List PublisherValue :=
  (reader.publishers node.nodeName).filter (fun p => p.topicName ∉ ignoreTopics)

/-- `TopicIgnoredReader._get_subscriptions` (`architecture_loaded.py` lines
215-221): drop subscriptions whose topic is ignored. -/
def tirGetSubscriptions (reader : ArchitectureReader) (ignoreTopics : List String)
    (node : NodeValue) : List SubscriptionValue :=
  (reader.subscriptions node.nodeName).filter (fun s => s.topicName ∉ ignoreTopics)

/-- `TopicIgnoredReader._get_callback_groups` (`architecture_loaded.py`
lines 119-134): each group keeps `tuple(set(cbg.callback_ids) -
self._ignore_callback_ids)`; the Python set difference is modelled
membership-faithfully by `dedup` plus `filter`. -/
def tirGetCallbackGroups (reader : ArchitectureReader) (ignoreTopics : List String)
    (node : NodeValue) : List CallbackGroupValue :=
  (reader.callbackGroups node.nodeName).map (fun cbg =>
    { cbg with
      callbackIds := cbg.callbackIds.dedup.filter
        (fun id => id ∉ getIgnoreCallbackIds reader ignoreTopics) })

/-- The first-occurrence-by-name deduplication loop of
`TopicIgnoredReader.get_nodes` (`architecture_loaded.py` lines 186-200),
carrying the `node_names` seen-set. -/
def dedupFirstByName : List NodeValue → List String → List NodeValue
  | [], _ => []
  | n :: ns, seen =>
    if n.nodeName ∈ seen then dedupFirstByName ns seen
    else n :: dedupFirstByName ns (n.nodeName :: seen)

/-- `itertools.groupby(node_names)` as used by
`TopicIgnoredReader._validate`: consecutive grouping of equal names. -/
def groupConsecNames : List String → List (String × List String)
  | [] => []
  | x :: xs =>
    match groupConsecNames xs with
    | [] => [(x, [x])]
    | (k, g) :: rest =>
      if x = k then (k, x :: g) :: rest
      else (x, [x]) :: (k, g) :: rest

/-- The duplicated names detected by `TopicIgnoredReader._validate`
(`architecture_loaded.py` lines 202-213): names whose *consecutive* group
has two or more members (`groupby` is applied to the unsorted name list).
`_validate` raises `InvalidReaderError` exactly when this list is
non-empty; `get_nodes` catches the error and logs it. -/
def validateDuplicated (names : List String) : List String :=
  (groupConsecNames names).filterMap (fun kg =>
    if 2 ≤ kg.2.length then some kg.1 else none)

/-- `TopicIgnoredReader.get_nodes` (`architecture_loaded.py` lines 186-200):
first-occurrence dedup by name, then `_validate` on the *original* list
(raising inside a `try` that logs), then `sorted(..., key=node_name)`.
Returns the node list and whether the invalid-input condition was logged. -/
def tirGetNodes (nodes : List NodeValue) : List NodeValue × Bool :=
  let deduped := dedupFirstByName nodes []
  let logged := !(validateDuplicated (nodes.map NodeValue.nodeName)).isEmpty
  ((deduped.mergeSort (fun a b => a.nodeName ≤ b.nodeName)), logged)

/-- `CallbacksStruct.get_callbacks` (`architecture/struct/callback.py` lines
322-348): look up each id in the callback dict, skipping missing ids.  The
dict keyed by `callback_id` is modelled by first-match lookup. -/
def getCallbacks (callbacks : List CallbackStruct) (callbackIds : List String) :
    List CallbackStruct :=
  callbackIds.filterMap (fun cid => callbacks.find? (fun cb => cb.callbackId == cid))

/-- `PublishersStruct.create_from_reader` (`architecture/struct/publisher.py`
lines 138-163): for each reader publisher record, skip topic `/tf`
(`continue`), otherwise build a `PublisherStruct` with the record's node and
topic names and the callbacks resolved from `callback_ids`. -/
def publishersCreateFromReader (readerPublishers : List PublisherValue)
    (callbacks : List CallbackStruct) : List PublisherStruct :=
  readerPublishers.filterMap (fun pv =>
    if pv.topicName = "/tf" then none
    else some ⟨pv.nodeName, pv.topicName,
      pv.callbackIds.map (fun ids => getCallbacks callbacks ids)⟩)

/-- The chain transform root→A of the spec's ancestry scenario. -/
def tRootA : TransformValue := ⟨"root", "A"⟩

/-- The chain transform A→B of the spec's ancestry scenario. -/
def tAB : TransformValue := ⟨"A", "B"⟩

/-- The chain transform B→C of the spec's ancestry scenario. -/
def tBC : TransformValue := ⟨"B", "C"⟩

/-- The tree `create_from_transforms` builds from the chain
`[root→A, A→B, B→C]` (the construction regroups bottom-up, so the deepest
chain edge ends up as the data-structure root). -/
def chainTree : TransformTree := .node tBC [.node tAB [.node tRootA []]]

/-- The frame buffer of the transform-pairing example: a node looking up
root→B against the chain tree. -/
def exFrameBuffer : TransformFrameBufferStruct :=
  ⟨chainTree, ⟨"root", "B"⟩, some "lookup_node", none⟩

/-- The frame broadcaster of the transform-pairing example: a node
broadcasting A→B on `/tf`. -/
def exFrameBroadcaster : TransformFrameBroadcasterStruct :=
  ⟨⟨"broadcast_node", "/tf", none⟩, tAB⟩

/-- The `/chatter` publisher of node `Producer` (C1 scenario). -/
def chatterPub : PublisherStruct := ⟨"Producer", "/chatter", none⟩

/-- The `/chatter` subscription of node `Consumer` (C1 scenario). -/
def chatterSub : SubscriptionStruct := ⟨"Consumer", "/chatter", none, false⟩

/-- Node `Producer` of the C1 scenario: publishes `/chatter` only. -/
def producerNode : NodeStruct :=
  ⟨"Producer", "Producer", [chatterPub], [], [], [], [], [], none, none⟩

/-- Node `Consumer` of the C1 scenario: subscribes to `/chatter` only. -/
def consumerNode : NodeStruct :=
  ⟨"Consumer", "Consumer", [], [chatterSub], [], [], [], [], none, none⟩

/-- The `/in` subscription of the C2 scenario node. -/
def inSub : SubscriptionStruct := ⟨"N", "/in", none, false⟩

/-- The `/out` publisher of the C2 scenario node. -/
def outPub : PublisherStruct := ⟨"N", "/out", none⟩

/-- The C2 scenario node: one subscription on `/in`, one publisher on
`/out`. -/
def pathScenarioNode : NodeStruct :=
  ⟨"N", "N", [outPub], [inSub], [], [], [], [], none, none⟩

/-- A duplicated-node-name reader input where the two `dup` occurrences are
adjacent (the spec's C5 scenario). -/
def dupAdjacentNodes : List NodeValue :=
  [⟨"dup", "id1"⟩, ⟨"dup", "id2"⟩]

/-- A duplicated-node-name reader input where the two `dup` occurrences are
separated by another node. -/
def dupSeparatedNodes : List NodeValue :=
  [⟨"dup", "id1"⟩, ⟨"x", "id2"⟩, ⟨"dup", "id3"⟩]

/-- An empty node snapshot used to build concrete communication values. -/
def emptyNodeValue (nm : String) : NodeStructValue :=
  ⟨nm, nm, [], [], [], [], [], [], none, none⟩

/-- A concrete communication value on `/chatter` from node `P` to node `C`,
used to exercise the duplicate branch of the communication table. -/
def exCommValue : CommunicationStructValue :=
  ⟨emptyNodeValue "P", emptyNodeValue "C",
    ⟨"P", "/chatter", none⟩, ⟨"C", "/chatter", none⟩, none, none⟩

/-- A concrete finalized node for the mutation-after-finalize check: empty
collections, no transform entities. -/
def exMutNode : NodeStruct :=
  ⟨"node", "node", [], [], [], [], [], [], none, none⟩

/-- A concrete transform buffer assigned through the unguarded `tf_buffer`
setter. -/
def exMutBuffer : TransformBufferStruct :=
  ⟨"node", .node ⟨"a", "b"⟩ [], [], none⟩

/-- The single communication built from the C1 scenario: publisher and
subscription are paired correctly, but the node slots carry `node_recv`
(Consumer) in `node_pub` and `node_send` (Producer) in `node_sub`, exactly
as `CommunicationsStruct.__init__` passes them. -/
def c1Comm : CommunicationStruct :=
  ⟨chatterPub, chatterSub, consumerNode, producerNode⟩

/-- Two equal names standing next to each other somewhere in the list: the
condition under which `itertools.groupby` over the unsorted name list can
see a group of size two or more. -/
def hasAdjacentDup : List String → Bool
  | a :: b :: t => a == b || hasAdjacentDup (b :: t)
  | _ => false

theorem length_listProduct (xs : List α) (ys : List β) :
    (listProduct xs ys).length = xs.length * ys.length := by
  induction xs with
  | nil => simp [listProduct]
  | cons x xs ih =>
    simp only [listProduct, List.flatMap_cons, List.length_append, List.length_map,
      List.length_cons] at ih ⊢
    rw [ih]
    ring

theorem mem_listProduct {xs : List α} {ys : List β} {p : α × β} :
    p ∈ listProduct xs ys ↔ p.1 ∈ xs ∧ p.2 ∈ ys := by
  cases p with
  | mk a b =>
    simp only [listProduct, List.mem_flatMap, List.mem_map, Prod.mk.injEq]
    aesop

theorem tableLength (node : NodeStruct) :
    (NodePathsStruct.createFromReaderTable node).length =
      node.nodeInputs.length + node.nodeOutputs.length +
        node.nodeInputs.length * node.nodeOutputs.length := by
  unfold NodePathsStruct.createFromReaderTable
  simp [length_listProduct]
  ring

theorem tableMem (node : NodeStruct) (p : NodePathStruct) :
    p ∈ NodePathsStruct.createFromReaderTable node ↔
      ((∃ i, i ∈ node.nodeInputs ∧ p = ⟨node.nodeName, some i, none, none, none⟩) ∨
       (∃ o, o ∈ node.nodeOutputs ∧ p = ⟨node.nodeName, none, some o, none, none⟩) ∨
       (∃ i o, i ∈ node.nodeInputs ∧ o ∈ node.nodeOutputs ∧
         p = ⟨node.nodeName, some i, some o, none, none⟩)) := by
  unfold NodePathsStruct.createFromReaderTable
  simp only [List.mem_append, List.mem_map, mem_listProduct]
  constructor
  · rintro ((⟨i, hi, rfl⟩ | ⟨o, ho, rfl⟩) | ⟨io, ⟨h1, h2⟩, rfl⟩)
    · exact Or.inl ⟨i, hi, rfl⟩
    · exact Or.inr (Or.inl ⟨o, ho, rfl⟩)
    · exact Or.inr (Or.inr ⟨io.1, io.2, h1, h2, rfl⟩)
  · rintro (⟨i, hi, rfl⟩ | ⟨o, ho, rfl⟩ | ⟨i, o, hi, ho, rfl⟩)
    · exact Or.inl (Or.inl ⟨i, hi, rfl⟩)
    · exact Or.inl (Or.inr ⟨o, ho, rfl⟩)
    · exact Or.inr ⟨(i, o), ⟨hi, ho⟩, rfl⟩

/-- Across the mixed endpoint variants `is_pair` is always false (the
`isinstance` checks in `publisher.py`/`subscription.py`/`transform.py`
reject them), so the final `else` branch of `CommunicationsStruct.__init__`
cannot be reached. -/
theorem mixedIsPairFalse (s : SubscriptionStruct) (b : TransformFrameBroadcasterStruct)
    (f : TransformFrameBufferStruct) (p : PublisherStruct) :
    NodeInputType.isPair (.sub s) (.br b) = false ∧
    NodeInputType.isPair (.buf f) (.pub p) = false :=
  ⟨rfl, rfl⟩

/-- `is_in` unfolded: membership in the appended symmetric-difference list
is the exclusive-or of the two ancestor-set memberships. -/
theorem isIn_iff (tree : TransformTree) (lookup target : TransformValue) :
    tree.isIn lookup target = true ↔
      Xor' (target ∈ tree.toRoot lookup.frameId)
        (target ∈ tree.toRoot lookup.childFrameId) := by
  unfold TransformTree.isIn
  simp only [decide_eq_true_eq, List.mem_append, List.mem_filter, decide_not,
    Bool.not_eq_true', decide_eq_false_iff_not, Xor']

/-- The finalize flag does not change the value a subscription snapshot
carries: a second `to_value` yields a field-wise equal value object. -/
theorem subToValue_idem (s : SubscriptionStruct) :
    ((s.toValue).2.toValue).1 = (s.toValue).1 := rfl

/-- After `to_value`, the subscription's `callback` setter hits the
`assert self._is_transformed == False`. -/
theorem subSetCallback_fails (s : SubscriptionStruct) (cb : CallbackStruct) :
    (s.toValue).2.setCallback cb =
      .error "AssertionError: self._is_transformed == False" := rfl

/-- A second `NodeStruct.to_value` on the struct returned by the first call
yields the same value and struct. -/
theorem nodeToValue_idem (n : NodeStruct) :
    (n.toValue).bind (fun vp => vp.2.toValue) = n.toValue := by
  unfold NodeStruct.toValue
  cases h1 : n.nodePaths.mapM NodePathStruct.toValue with
  | none => simp [h1]
  | some npv =>
    cases h2 : n.variablePassings.mapM VariablePassingStruct.toValue with
    | none => simp [h1, h2]
    | some vpv =>
      simp only [List.mapM] at h1 h2
      simp [h1, h2, List.map_map, Function.comp, SubscriptionStruct.toValue]

/-- Filtering a first-occurrence deduplication by one name yields the `find?`
of that name on the input (when the name was not already seen). -/
theorem dedupFilter (nodes : List NodeValue) (seen : List String) (name : String) :
    (dedupFirstByName nodes seen).filter (fun n => n.nodeName = name) =
      if name ∈ seen then [] else (nodes.find? (fun n => n.nodeName = name)).toList := by
  induction nodes generalizing seen with
  | nil => simp [dedupFirstByName]
  | cons x xs ih =>
    by_cases hx : x.nodeName ∈ seen
    · rw [dedupFirstByName, if_pos hx, ih]
      by_cases hn : name = x.nodeName
      · subst hn
        simp [hx, List.find?]
      · rw [List.find?_cons]
        have hpred : (decide (x.nodeName = name)) = false := by simp [Ne.symm hn]
        simp [hpred]
    · rw [dedupFirstByName, if_neg hx]
      by_cases hn : name = x.nodeName
      · subst hn
        rw [List.filter_cons]
        simp only [decide_eq_true_eq, if_pos rfl, ite_true]
        rw [ih]
        simp [hx, List.find?]
      · rw [List.filter_cons]
        have hpred : (decide (x.nodeName = name)) = false := by simp [Ne.symm hn]
        simp only [hpred, Bool.false_eq_true, if_false]
        rw [ih]
        have hmem : (name ∈ x.nodeName :: seen) ↔ (name ∈ seen) := by simp [hn]
        rw [List.find?_cons]
        simp [hpred, hmem]

/-- Filtering is stable under permutation when the filtered image has at
most one element. -/
theorem perm_filter_eq {l l2 : List α} (h : l.Perm l2) (p : α → Bool)
    (hlen : (l2.filter p).length ≤ 1) : l.filter p = l2.filter p := by
  have hp := h.filter p
  match hl : l2.filter p with
  | [] =>
    rw [hl] at hp
    exact hp.eq_nil
  | [a] =>
    rw [hl] at hp
    exact List.perm_singleton.mp hp
  | a :: b :: t =>
    rw [hl] at hlen
    simp at hlen

/-- `get_nodes` keeps, for every name, exactly the input's first occurrence
(the final `sorted` only permutes the deduplicated list). -/
theorem tirGetNodesFilter (nodes : List NodeValue) (name : String) :
    ((tirGetNodes nodes).1.filter (fun n => n.nodeName = name)) =
      (nodes.find? (fun n => n.nodeName = name)).toList := by
  unfold tirGetNodes
  have hperm := List.mergeSort_perm (dedupFirstByName nodes [])
    (fun a b => a.nodeName ≤ b.nodeName)
  have hd := dedupFilter nodes [] name
  simp only [List.not_mem_nil, if_false] at hd
  have hlen :
      ((dedupFirstByName nodes []).filter (fun n => n.nodeName = name)).length ≤ 1 := by
    rw [hd]
    cases nodes.find? (fun n => n.nodeName = name) <;> simp
  exact (perm_filter_eq hperm _ hlen).trans hd

/-- The first group produced by consecutive grouping of `x :: xs` is keyed
by `x` and starts with `x`. -/
theorem groupConsecHead (x : String) (xs : List String) :
    ∃ g rest, groupConsecNames (x :: xs) = (x, x :: g) :: rest := by
  induction xs generalizing x with
  | nil => exact ⟨[], [], rfl⟩
  | cons y ys ih =>
    obtain ⟨g, rest, hg⟩ := ih y
    by_cases hxy : x = y
    · subst hxy
      refine ⟨x :: g, rest, ?_⟩
      rw [groupConsecNames, hg]
      simp
    · refine ⟨[], (y, y :: g) :: rest, ?_⟩
      rw [groupConsecNames, hg]
      simp [hxy]

/-- `_validate` detects a duplicate exactly when two equal names are
adjacent in the (unsorted) name list. -/
theorem validate_iff_adjacent (names : List String) :
    validateDuplicated names ≠ [] ↔ hasAdjacentDup names = true := by
  induction names with
  | nil => simp [validateDuplicated, groupConsecNames, hasAdjacentDup]
  | cons a tail ih =>
    match tail with
    | [] => simp [validateDuplicated, groupConsecNames, hasAdjacentDup]
    | b :: t =>
      obtain ⟨g0, rest, hg⟩ := groupConsecHead b t
      set g := b :: g0 with hgdef
      by_cases hab : a = b
      · subst hab
        rw [hasAdjacentDup]
        simp only [beq_self_eq_true, Bool.true_or]
        rw [validateDuplicated, groupConsecNames, hg]
        simp
        intro hcontra
        rw [hgdef] at hcontra
        simp only [List.length_cons] at hcontra
        omega
      · rw [hasAdjacentDup]
        have hbeq : (a == b) = false := by simp [hab]
        rw [hbeq, Bool.false_or]
        rw [validateDuplicated, groupConsecNames, hg]
        simp only [if_neg hab]
        rw [List.filterMap_cons]
        simp only [List.length_cons, List.length_nil]
        rw [if_neg (by omega)]
        rw [← ih]
        rw [validateDuplicated, hg]

/-- The logged flag of `get_nodes` equals the adjacent-duplicate test. -/
theorem loggedEq (nodes : List NodeValue) :
    (tirGetNodes nodes).2 = hasAdjacentDup (nodes.map NodeValue.nodeName) := by
  have h := validate_iff_adjacent (nodes.map NodeValue.nodeName)
  show (!(validateDuplicated (nodes.map NodeValue.nodeName)).isEmpty) =
    hasAdjacentDup (nodes.map NodeValue.nodeName)
  by_cases hv : validateDuplicated (nodes.map NodeValue.nodeName) = []
  · rw [hv]
    have hb : hasAdjacentDup (nodes.map NodeValue.nodeName) = false := by
      cases hb0 : hasAdjacentDup (nodes.map NodeValue.nodeName)
      · rfl
      · exact absurd hv (h.mpr hb0)
    rw [hb]
    rfl
  · have hb := h.mp hv
    rw [hb]
    cases hl : validateDuplicated (nodes.map NodeValue.nodeName) with
    | nil => exact absurd hl hv
    | cons y ys => rfl

theorem nodeOutputsMem (n : NodeStruct) (x : NodeOutputType) :
    x ∈ n.nodeOutputs ↔
      ((∃ p, p ∈ n.publishers ∧ p.topicName ≠ "/tf" ∧
          p.topicName.endsWith "/info/pub" = false ∧ x = .pub p) ∨
       (∃ tbr b, n.tfBroadcaster = some tbr ∧ b ∈ tbr.frameBroadcasters ∧ x = .br b)) := by
  have hpub : ∀ (p : PublisherStruct),
      (p ∈ (n.publishers.filter (fun y => y.topicName ≠ "/tf")).filter
          (fun y => ¬ y.topicName.endsWith "/info/pub")) ↔
        (p ∈ n.publishers ∧ p.topicName ≠ "/tf" ∧
          p.topicName.endsWith "/info/pub" = false) := by
    intro p
    rw [List.mem_filter, List.mem_filter]
    simp only [decide_not, Bool.not_eq_true', decide_eq_false_iff_not, decide_eq_true_eq]
    constructor
    · rintro ⟨⟨h1, h2⟩, h3⟩
      exact ⟨h1, h2, by simpa using h3⟩
    · rintro ⟨h1, h2, h3⟩
      exact ⟨⟨h1, h2⟩, by simpa using h3⟩
  unfold NodeStruct.nodeOutputs
  cases htb : n.tfBroadcaster with
  | none =>
    simp only [List.append_nil]
    constructor
    · intro hx
      obtain ⟨p, hp, rfl⟩ := List.mem_map.mp hx
      exact Or.inl ⟨p, by simpa using (hpub p).mp hp⟩
    · rintro (⟨p, h1, h2, h3, rfl⟩ | ⟨tbr, b, htb2, hb, rfl⟩)
      · exact List.mem_map.mpr ⟨p, (hpub p).mpr ⟨h1, h2, h3⟩, rfl⟩
      · exact absurd htb2 (by simp)
  | some tb =>
    constructor
    · intro hx
      rcases List.mem_append.mp hx with hL | hR
      · obtain ⟨p, hp, rfl⟩ := List.mem_map.mp hL
        exact Or.inl ⟨p, by simpa using (hpub p).mp hp⟩
      · obtain ⟨b, hb, rfl⟩ := List.mem_map.mp hR
        exact Or.inr ⟨tb, b, rfl, hb, rfl⟩
    · rintro (⟨p, h1, h2, h3, rfl⟩ | ⟨tbr, b, htb2, hb, rfl⟩)
      · exact List.mem_append.mpr
          (Or.inl (List.mem_map.mpr ⟨p, (hpub p).mpr ⟨h1, h2, h3⟩, rfl⟩))
      · obtain rfl : tb = tbr := by injection htb2
        exact List.mem_append.mpr (Or.inr (List.mem_map.mpr ⟨b, hb, rfl⟩))

theorem publishersCreateMem (readerPublishers : List PublisherValue)
    (callbacks : List CallbackStruct) (p : PublisherStruct) :
    p ∈ publishersCreateFromReader readerPublishers callbacks ↔
      ∃ pv, pv ∈ readerPublishers ∧ pv.topicName ≠ "/tf" ∧
        p = ⟨pv.nodeName, pv.topicName,
          pv.callbackIds.map (fun ids => getCallbacks callbacks ids)⟩ := by
  unfold publishersCreateFromReader
  simp only [List.mem_filterMap]
  constructor
  · rintro ⟨pv, hpv, hsome⟩
    by_cases htf : pv.topicName = "/tf"
    · rw [if_pos htf] at hsome
      exact absurd hsome (by simp)
    · rw [if_neg htf] at hsome
      refine ⟨pv, hpv, htf, ?_⟩
      have := Option.some.inj hsome
      exact this.symm
  · rintro ⟨pv, hpv, htf, rfl⟩
    exact ⟨pv, hpv, by rw [if_neg htf]⟩

theorem tirPublishersMem (reader : ArchitectureReader) (ignoreTopics : List String)
    (node : NodeValue) (p : PublisherValue) :
    p ∈ tirGetPublishers reader ignoreTopics node ↔
      p ∈ reader.publishers node.nodeName ∧ p.topicName ∉ ignoreTopics := by
  unfold tirGetPublishers
  rw [List.mem_filter]
  simp

theorem tirSubscriptionsMem (reader : ArchitectureReader) (ignoreTopics : List String)
    (node : NodeValue) (s : SubscriptionValue) :
    s ∈ tirGetSubscriptions reader ignoreTopics node ↔
      s ∈ reader.subscriptions node.nodeName ∧ s.topicName ∉ ignoreTopics := by
  unfold tirGetSubscriptions
  rw [List.mem_filter]
  simp

theorem ignoreIdsMem (reader : ArchitectureReader) (ignoreTopics : List String)
    (cid : String) :
    cid ∈ getIgnoreCallbackIds reader ignoreTopics ↔
      ∃ node, node ∈ reader.nodes ∧
        ∃ cb, cb ∈ reader.subscriptionCallbacks node.nodeName ∧
          cb.subscribeTopicName ∈ ignoreTopics ∧ cb.callbackId = some cid := by
  unfold getIgnoreCallbackIds
  simp only [List.mem_flatMap, List.mem_filterMap]
  constructor
  · rintro ⟨node, hn, cb, hcb, hif⟩
    by_cases ht : cb.subscribeTopicName ∈ ignoreTopics
    · rw [if_pos ht] at hif
      exact ⟨node, hn, cb, hcb, ht, hif⟩
    · rw [if_neg ht] at hif
      exact absurd hif (by simp)
  · rintro ⟨node, hn, cb, hcb, ht, hid⟩
    exact ⟨node, hn, cb, hcb, by rw [if_pos ht]; exact hid⟩

theorem tirCallbackGroupsForall (reader : ArchitectureReader) (ignoreTopics : List String)
    (node : NodeValue) :
    List.Forall₂
      (fun cbg0 cbg1 => ∀ cid, cid ∈ cbg1.callbackIds ↔
        (cid ∈ cbg0.callbackIds ∧ cid ∉ getIgnoreCallbackIds reader ignoreTopics))
      (reader.callbackGroups node.nodeName)
      (tirGetCallbackGroups reader ignoreTopics node) := by
  unfold tirGetCallbackGroups
  rw [List.forall₂_map_right_iff]
  rw [List.forall₂_same]
  intro cbg hmem cid
  simp [List.mem_filter, List.mem_dedup]

/-- C1: for the Producer/Consumer `/chatter` scenario,
`CommunicationsStruct.__init__` builds exactly one communication whose
publisher/subscription are paired correctly, but it passes `node_recv` (the
subscribing node, Consumer) into the `node_pub` parameter and `node_send`
(Producer) into `node_sub`, so the snapshot's `publish_node_name` is
"Consumer" and its `subscribe_node_name` is "Producer" — the opposite of the
claim; no duplicate-dropping or warning exists in this constructor. -/
theorem claim1_swapped_node_slots :
    communicationsStructInit [producerNode, consumerNode] = [.comm c1Comm] ∧
    c1Comm.pub = chatterPub ∧ c1Comm.sub = chatterSub ∧
    c1Comm.nodePub = consumerNode ∧ c1Comm.nodeSub = producerNode ∧
    (c1Comm.toValue).map CommunicationStructValue.publishNodeName = some "Consumer" ∧
    (c1Comm.toValue).map CommunicationStructValue.subscribeNodeName = some "Producer" ∧
    (c1Comm.toValue).map CommunicationStructValue.topicName = some "/chatter" :=
  ⟨rfl, rfl, rfl, rfl, rfl, rfl, rfl, rfl⟩

/-- C2: the per-node path table pre-populated by
`NodePathsStruct.create_from_reader` has exactly `I + O + I*O` entries — one
per input with output `None`, one per output with input `None`, one per
(input, output) pair — and for a node with one subscription on `/in` and one
publisher on `/out` it is exactly the three entries
`(in, None), (None, out), (in, out)`. -/
theorem claim2_node_path_table :
    (∀ node : NodeStruct,
      (NodePathsStruct.createFromReaderTable node).length =
        node.nodeInputs.length + node.nodeOutputs.length +
          node.nodeInputs.length * node.nodeOutputs.length) ∧
    (∀ (node : NodeStruct) (p : NodePathStruct),
      p ∈ NodePathsStruct.createFromReaderTable node ↔
        ((∃ i, i ∈ node.nodeInputs ∧ p = ⟨node.nodeName, some i, none, none, none⟩) ∨
         (∃ o, o ∈ node.nodeOutputs ∧ p = ⟨node.nodeName, none, some o, none, none⟩) ∨
         (∃ i o, i ∈ node.nodeInputs ∧ o ∈ node.nodeOutputs ∧
           p = ⟨node.nodeName, some i, some o, none, none⟩))) ∧
    NodePathsStruct.createFromReaderTable pathScenarioNode =
      [⟨"N", some (.sub inSub), none, none, none⟩,
       ⟨"N", none, some (.pub outPub), none, none⟩,
       ⟨"N", some (.sub inSub), some (.pub outPub), none, none⟩] :=
  ⟨tableLength, tableMem, rfl⟩

/-- C3: `is_in(lookup, target)` holds exactly when `target` lies in the
symmetric difference of the root-ancestor sets of `lookup.frame_id` and
`lookup.child_frame_id`; on the tree built from the chain root→A→B→C,
`is_in(root→B, A→B)` is true and `is_in(root→B, B→C)` is false. -/
theorem claim3_transform_ancestry :
    (∀ (tree : TransformTree) (lookup target : TransformValue),
      tree.isIn lookup target = true ↔
        Xor' (target ∈ tree.toRoot lookup.frameId)
          (target ∈ tree.toRoot lookup.childFrameId)) ∧
    createFromTransforms [tRootA, tAB, tBC] = some chainTree ∧
    chainTree.isIn ⟨"root", "B"⟩ tAB = true ∧
    chainTree.isIn ⟨"root", "B"⟩ tBC = false :=
  ⟨isIn_iff, rfl, rfl, rfl⟩

/-- C4: in `CallbackPathSearcher.search` the guard
`out_values is None or out_values == ()` can never fire after
`out_values = end_callback.node_outputs or []` (the empty result is a list,
not a tuple, and `[] == ()` is false in Python), so a found chain whose end
callback declares no outputs yields zero `_to_path` invocations instead of
the claimed single `None`-output node path. -/
theorem claim4_no_output_chain_yields_nothing :
    (∀ (α : Type) (v : Option (PySeq α)), searchGuard (pyOrEmptyList v) = false) ∧
    searchExpansion [⟨["cb@read", "cb@write"]⟩] none none = [] ∧
    searchExpansion [⟨["cb@read", "cb@write"]⟩] none (some (.list [])) = [] ∧
    searchExpansion [⟨["cb@read", "cb@write"]⟩] none (some (.tuple [])) = [] := by
  refine ⟨?_, rfl, rfl, rfl⟩
  intro α v
  match v with
  | none => rfl
  | some (.list []) => rfl
  | some (.list (x :: xs)) => rfl
  | some (.tuple []) => rfl
  | some (.tuple (x :: xs)) => rfl

/-- C5 counterexample: with reader order `[dup, x, dup]` the two `dup`
declarations are not adjacent, so `_validate`'s consecutive `groupby` sees
no duplicate and nothing is logged — refuting the claim's unconditional
"the duplicate is reported by logging"; the collection still keeps exactly
the first `dup` occurrence. -/
theorem claim5_counterexample :
    (tirGetNodes dupSeparatedNodes).2 = false ∧
    (tirGetNodes dupSeparatedNodes).1.filter (fun n => n.nodeName = "dup") =
      [⟨"dup", "id1"⟩] := by
  constructor
  · rfl
  · rw [tirGetNodesFilter]
    rfl

/-- C5 amended: `get_nodes` keeps, for every name, exactly the input's first
occurrence and raises nothing; the invalid-input condition is logged exactly
when two equal names are adjacent in reader order (as in the two-node `dup`
scenario, which is logged). -/
theorem claim5_amended :
    (∀ (nodes : List NodeValue) (name : String),
      (tirGetNodes nodes).1.filter (fun n => n.nodeName = name) =
        (nodes.find? (fun n => n.nodeName = name)).toList) ∧
    (∀ nodes : List NodeValue,
      (tirGetNodes nodes).2 = hasAdjacentDup (nodes.map NodeValue.nodeName)) ∧
    (tirGetNodes dupAdjacentNodes).2 = true ∧
    (tirGetNodes dupAdjacentNodes).1.filter (fun n => n.nodeName = "dup") =
      [⟨"dup", "id1"⟩] := by
  refine ⟨tirGetNodesFilter, loggedEq, rfl, ?_⟩
  rw [tirGetNodesFilter]
  rfl

/-- C6: a duplicated (publisher-node, subscriber-node, topic) triple makes
`NodePathSearcher.__init__` evaluate a warning f-string that reads
`comm.publish_node_name` on a `CommunicationWrapper`, which defines no such
attribute — an `AttributeError` propagates instead of the claimed
warn-and-drop; a duplicate-free input builds the table and one edge per
communication normally. -/
theorem claim6_duplicate_comm_attribute_error :
    nodePathSearcherCommTable [exCommValue, exCommValue] none none =
      .error "AttributeError: CommunicationWrapper object has no attribute publish_node_name" ∧
    nodePathSearcherCommTable [exCommValue] none none =
      .ok ([(("P", "C", "/chatter"), ⟨"C", "P", "/chatter"⟩)],
           [⟨"P", "C", "/chatter"⟩]) :=
  ⟨rfl, rfl⟩

/-- C7 counterexample: `NodeStruct` has no finalize guard — after `to_value`
has been computed on `exMutNode` (successfully, returning the unchanged
struct), the `tf_buffer` setter still succeeds and changes the struct,
refuting "after to_value ... every mutating operation on the struct fails
rather than changing it". -/
theorem claim7_counterexample :
    NodeStruct.toValue exMutNode = some (emptyNodeValue "node", exMutNode) ∧
    (exMutNode.setTfBuffer exMutBuffer).tfBuffer = some exMutBuffer ∧
    exMutNode.tfBuffer = none :=
  ⟨rfl, rfl, rfl⟩

/-- C7 amended: `to_value` is idempotent in content for the modelled structs
(a second call yields field-wise equal values), and mutation-after-finalize
fails exactly where the source carries the `_is_transformed` guard: the
subscription's `callback` setter fails after `to_value`, while `NodeStruct`
mutators such as the `tf_buffer` setter still succeed and mutate. -/
theorem claim7_amended :
    (∀ s : SubscriptionStruct, ((s.toValue).2.toValue).1 = (s.toValue).1) ∧
    (∀ (s : SubscriptionStruct) (cb : CallbackStruct),
      (s.toValue).2.setCallback cb =
        .error "AssertionError: self._is_transformed == False") ∧
    (∀ n : NodeStruct, (n.toValue).bind (fun vp => vp.2.toValue) = n.toValue) ∧
    (∀ (n : NodeStruct) (b : TransformBufferStruct),
      (n.setTfBuffer b).tfBuffer = some b) :=
  ⟨subToValue_idem, subSetCallback_fails, nodeToValue_idem, fun _ _ => rfl⟩

/-- C8: `node_outputs` contains an ordinary publisher only if its topic is
neither `/tf` nor ends in `/info/pub` (everything else in it is a
per-transform frame broadcaster of the node's tf broadcaster), and
`PublishersStruct.create_from_reader` never loads a `/tf` publisher. -/
theorem claim8_tf_and_info_pub_excluded :
    (∀ (n : NodeStruct) (x : NodeOutputType),
      x ∈ n.nodeOutputs ↔
        ((∃ p, p ∈ n.publishers ∧ p.topicName ≠ "/tf" ∧
            p.topicName.endsWith "/info/pub" = false ∧ x = .pub p) ∨
         (∃ tbr b, n.tfBroadcaster = some tbr ∧ b ∈ tbr.frameBroadcasters ∧ x = .br b))) ∧
    (∀ (readerPublishers : List PublisherValue) (callbacks : List CallbackStruct)
        (p : PublisherStruct),
      p ∈ publishersCreateFromReader readerPublishers callbacks ↔
        ∃ pv, pv ∈ readerPublishers ∧ pv.topicName ≠ "/tf" ∧
          p = ⟨pv.nodeName, pv.topicName,
            pv.callbackIds.map (fun ids => getCallbacks callbacks ids)⟩) :=
  ⟨nodeOutputsMem, publishersCreateMem⟩

/-- C9: the topic-ignoring reader returns exactly the underlying publishers
and subscriptions whose topic is not ignored, every callback group's id
membership is the underlying membership minus the ignored ids, and the
ignored ids are exactly the ids of subscription callbacks whose subscribed
topic is in the ignore list. -/
theorem claim9_topic_ignore_filtering :
    (∀ (reader : ArchitectureReader) (ignoreTopics : List String)
        (node : NodeValue) (p : PublisherValue),
      p ∈ tirGetPublishers reader ignoreTopics node ↔
        p ∈ reader.publishers node.nodeName ∧ p.topicName ∉ ignoreTopics) ∧
    (∀ (reader : ArchitectureReader) (ignoreTopics : List String)
        (node : NodeValue) (s : SubscriptionValue),
      s ∈ tirGetSubscriptions reader ignoreTopics node ↔
        s ∈ reader.subscriptions node.nodeName ∧ s.topicName ∉ ignoreTopics) ∧
    (∀ (reader : ArchitectureReader) (ignoreTopics : List String) (node : NodeValue),
      List.Forall₂
        (fun cbg0 cbg1 => ∀ cid, cid ∈ cbg1.callbackIds ↔
          (cid ∈ cbg0.callbackIds ∧ cid ∉ getIgnoreCallbackIds reader ignoreTopics))
        (reader.callbackGroups node.nodeName)
        (tirGetCallbackGroups reader ignoreTopics node)) ∧
    (∀ (reader : ArchitectureReader) (ignoreTopics : List String) (cid : String),
      cid ∈ getIgnoreCallbackIds reader ignoreTopics ↔
        ∃ node, node ∈ reader.nodes ∧
          ∃ cb, cb ∈ reader.subscriptionCallbacks node.nodeName ∧
            cb.subscribeTopicName ∈ ignoreTopics ∧ cb.callbackId = some cid) :=
  ⟨tirPublishersMem, tirSubscriptionsMem, tirCallbackGroupsForall, ignoreIdsMem⟩

/-- C10: `TransformFrameBroadcasterStruct.is_pair` returns `False` for every
argument (its buffer branch computes `other.is_pair(self)` but never returns
it), including a frame buffer whose own `is_pair` on the broadcaster is
true; only the buffer side can establish a transform pair. -/
theorem claim10_broadcaster_is_pair_asymmetric :
    (∀ (b : TransformFrameBroadcasterStruct) (x : EndpointStruct),
      b.isPair x = false) ∧
    exFrameBuffer.isPair (.br exFrameBroadcaster) = true ∧
    exFrameBroadcaster.isPair (.buf exFrameBuffer) = false := by
  refine ⟨?_, rfl, rfl⟩
  intro b x
  cases x <;> rfl

end CaretAnalyze
